import Mathlib

/-!
Verification of the mail-service test harness (Python scripts) against its
natural-language specification.  The Python scripts are shallowly embedded:
JSON values become an inductive type, every HTTP interaction becomes an
abstract response value (including the possibility that the call raised),
and each script's control flow becomes a pure Lean function over those
inputs.  Python dynamic-typing failures (AttributeError, KeyError,
TypeError) are modelled with Option, matching the scripts'
catch-all exception handlers.
-/

/-- JSON values as returned by response.json() in the Python scripts. -/
inductive Json where
  | null
  | bool (b : Bool)
  | num (n : Int)
  | str (s : String)
  | arr (xs : List Json)
  | obj (kvs : List (String × Json))

/-- Association-list lookup, modelling Python dict key lookup
(dicts have unique keys, so first-match lookup is faithful). -/
def jLookup (kvs : List (String × Json)) (k : String) : Option Json :=
  match kvs with
  | [] => none
  | (k', v) :: rest => if k' = k then some v else jLookup rest k

/-- Python truthiness of a JSON value (bool(x)). -/
def truthy : Json → Bool
  | .null => false
  | .bool b => b
  | .num n => n != 0
  | .str s => s != ""
  | .arr xs => !xs.isEmpty
  | .obj kvs => !kvs.isEmpty

/-- Python d.get(k, default): AttributeError (none) unless the receiver is a
dict, else the stored value or the default. -/
def pyGetD (j : Json) (k : String) (d : Json) : Option Json :=
  match j with
  | .obj kvs => some ((jLookup kvs k).getD d)
  | _ => none

/-- Python j[k] with a string key: some value if j is a dict containing k,
none for a KeyError or a TypeError on a non-dict receiver. -/
def pyIndex (j : Json) (k : String) : Option Json :=
  match j with
  | .obj kvs => jLookup kvs k
  | _ => none

/-- Python len(j): defined for strings, lists and dicts, TypeError (none)
otherwise. -/
def pyLen : Json → Option Nat
  | .str s => some s.length
  | .arr xs => some xs.length
  | .obj kvs => some kvs.length
  | _ => none

/-- Python `k in d` for a dict receiver. -/
def hasKey (kvs : List (String × Json)) (k : String) : Bool :=
  (jLookup kvs k).isSome

/-- Whether a JSON value is a list. -/
def isArr : Json → Bool
  | .arr _ => true
  | _ => false

/-- Whether a JSON value supports Python slicing j[:n] (strings and lists). -/
def sliceable : Json → Bool
  | .str _ => true
  | .arr _ => true
  | _ => false

/-- Outcome of one HTTP call made via requests: either the call raised
(connection error etc.), or it returned a status code and a body; the body is
none when response.json() would raise (non-JSON payload). -/
inductive Resp where
  | exn
  | ok (status : Nat) (body : Option Json)

/-! ## scripts/ws/simple_debug.py -/

/-- The triple returned by create_mailbox in scripts/ws/simple_debug.py
(fields are raw JSON values, since the script does not coerce them). -/
structure Mailbox where
  address : Json
  mailboxId : Json
  token : Json

/-- create_mailbox of scripts/ws/simple_debug.py: POST /api/mailbox/generate;
on status 200/201 parse the body, require a truthy "success" and a "data"
member, then read data["address"], data["id"], data["token"]; every failure
path (exception, bad status, malformed body, KeyError) returns None. -/
def create_mailbox (r : Resp) : Option Mailbox :=
  match r with
  | .exn => none
  | .ok status body =>
    if status == 200 || status == 201 then
      match body with
      | none => none
      | some result =>
        match result with
        | .obj kvs =>
          if truthy ((jLookup kvs "success").getD .null) && hasKey kvs "data" then
            match jLookup kvs "data" with
            | some data =>
              match pyIndex data "address", pyIndex data "id", pyIndex data "token" with
              | some a, some i, some t => some ⟨a, i, t⟩
              | _, _, _ => none
            | none => none
          else none
        | _ => none
    else none

/-- check_mailbox_emails of scripts/ws/simple_debug.py: on status 200 parse
the body; result.get("success") raises AttributeError on a non-dict body
(caught, giving []); on a dict with truthy success and a "data" member the
emails value is result["data"], otherwise the isinstance(result, list)
fallback (always False for a dict) gives []; len(emails) raises on a
non-sized value (caught, giving []); all other failures give []. -/
def check_mailbox_emails (r : Resp) : Json :=
  match r with
  | .exn => .arr []
  | .ok status body =>
    if status == 200 then
      match body with
      | none => .arr []
      | some result =>
        match result with
        | .obj kvs =>
          let emails :=
            if truthy ((jLookup kvs "success").getD .null) && hasKey kvs "data" then
              (jLookup kvs "data").getD .null
            else .arr []
          match pyLen emails with
          | none => .arr []
          | some _ => emails
        | _ => .arr []
    else .arr []

/-- The "data" value of a well-formed 200 retrieval envelope (the value the
wrapped-envelope branch of check_mailbox_emails reads), none otherwise. -/
def envelopeData (r : Resp) : Option Json :=
  match r with
  | .exn => none
  | .ok status body =>
    if status == 200 then
      match body with
      | some (.obj kvs) =>
        if truthy ((jLookup kvs "success").getD .null) && hasKey kvs "data" then
          jLookup kvs "data"
        else none
      | _ => none
    else none

/-- Observable events of a simple_debug.py run, in program order. -/
inductive Evt where
  | healthCheck
  | provisionCall
  | injectCall
  | sleep
  | retrieveCall
deriving DecidableEq

/-- External inputs of one simple_debug.py run: the provisioning response,
whether the SMTP send raised, and the retrieval response. -/
structure World where
  provision : Resp
  sendRaises : Bool
  retrieve : Resp

/-- Result of one simple_debug.py run: the event trace, whether the script
printed 测试终止 and returned early, the value returned by
check_mailbox_emails when that phase was reached, and the process exit
code. -/
structure MainOutcome where
  trace : List Evt
  terminatedEarly : Bool
  emails : Option Json
  exitCode : Nat

/-- main of scripts/ws/simple_debug.py: check_services, then create_mailbox
(None aborts the run), then send_test_email (False aborts the run), then ten
unconditional one-second sleeps, then one check_mailbox_emails call; the
script never calls sys.exit, so every path exits 0. -/
def simpleDebugMain (w : World) : MainOutcome :=
  match create_mailbox w.provision with
  | none => ⟨[.healthCheck, .provisionCall], true, none, 0⟩
  | some _ =>
    if w.sendRaises then
      ⟨[.healthCheck, .provisionCall, .injectCall], true, none, 0⟩
    else
      ⟨[.healthCheck, .provisionCall, .injectCall]
         ++ List.replicate 10 .sleep ++ [.retrieveCall],
       false, some (check_mailbox_emails w.retrieve), 0⟩

/-- A 2xx HTTP status, as the spec's "success status". -/
def successStatus (n : Nat) : Bool := 200 ≤ n && n < 300

/-- Modelled from the spec's words (for comparison with create_mailbox): a
well-formed provisioning envelope is a JSON object with a truthy success flag
and a data object holding id, address and token. -/
def wellFormedEnvelope (body : Option Json) : Bool :=
  match body with
  | some (.obj kvs) =>
    truthy ((jLookup kvs "success").getD .null) &&
    (match jLookup kvs "data" with
     | some (.obj dkvs) =>
       hasKey dkvs "id" && hasKey dkvs "address" && hasKey dkvs "token"
     | _ => false)
  | _ => false

/-! ## scripts/send_test_email.py -/

/-- CLI arguments of scripts/send_test_email.py (argparse: email, --subject,
--content, --html, --multiple). -/
structure Args where
  email : String
  subject : String
  content : String
  html : Bool
  multiple : Nat

/-- Message body: plain text, or the multipart/alternative pair built by
send_html_email. -/
inductive MsgBody where
  | plain (text : String)
  | alternative (text htmlPart : String)
deriving DecidableEq

/-- One constructed MIME message (From, To, Subject, body). -/
structure Msg where
  sender : String
  recipient : String
  subject : String
  body : MsgBody
deriving DecidableEq

/-- The fixed html_content literal of send_html_email. -/
def htmlContent : String :=
  "\n    <html>\n      <body>\n        <h2>🎉 HTML 测试邮件</h2>\n        <p>这是一封包含 <strong>HTML 格式</strong> 的测试邮件。</p>\n        <ul>\n          <li>支持 HTML 格式</li>\n          <li>支持中文内容</li>\n          <li>支持表情符号 😊</li>\n        </ul>\n        <p><a href=\"https://mail.nnu.edu.kg\">访问临时邮箱服务</a></p>\n      </body>\n    </html>\n    "

/-- The fixed plain-text part of send_html_email's multipart message. -/
def htmlTextPart : String := "这是纯文本版本的测试邮件"

/-- The message constructed in iteration i (0-based) of main's loop in
scripts/send_test_email.py: with --html it is send_html_email's fixed message
(only the recipient comes from the arguments); otherwise send_test_email is
called with the subject and content disambiguated by "#（i+1）" exactly when
args.multiple > 1. -/
def buildMessage (args : Args) (i : Nat) : Msg :=
  if args.html then
    { sender := "html-test@example.com"
      recipient := args.email
      subject := "HTML 格式测试邮件"
      body := .alternative htmlTextPart htmlContent }
  else
    { sender := "test@example.com"
      recipient := args.email
      subject :=
        if args.multiple > 1 then args.subject ++ " #" ++ toString (i + 1)
        else args.subject
      body := .plain
        (if args.multiple > 1 then
          args.content ++ "\n\n邮件编号: " ++ toString (i + 1) ++ "/" ++ toString args.multiple
        else args.content) }

/-- One loop iteration of main: the constructed message, and whether the
iteration's SMTP transaction completed (send_test_email / send_html_email
catch any exception and return False, so a raising iteration yields
success := false instead of aborting the loop). -/
structure IterResult where
  msg : Msg
  success : Bool
deriving DecidableEq

/-- Outcome of main of scripts/send_test_email.py, over the list saying which
iterations' SMTP transactions raise. -/
structure InjectorOutcome where
  iters : List IterResult
  successCount : Nat
  exitCode : Nat

/-- main of scripts/send_test_email.py: for i in range(args.multiple), build
and send one message; success_count counts the iterations whose send returned
True; the script never calls sys.exit, so it exits 0. -/
def injectorMain (args : Args) (raises : List Bool) : InjectorOutcome :=
  let iters := (List.range args.multiple).map
    (fun i => ⟨buildMessage args i, !(raises.getD i false)⟩)
  ⟨iters, (iters.filter (fun it => it.success)).length, 0⟩

/-- The sequence of messages one run of main constructs. -/
def injectorMsgs (args : Args) : List Msg :=
  (List.range args.multiple).map (buildMessage args)

/-! ## src/send_test_mail.py -/

/-- The four ways send_test_email of src/send_test_mail.py can end: the
message is sent, or one of the three except clauses (socket.error,
smtplib.SMTPException, Exception) catches and prints. -/
inductive SmtpOutcome where
  | sent
  | socketError
  | smtpError
  | otherError
deriving DecidableEq

/-- Exit code of src/send_test_mail.py: every except clause only prints, the
script never calls sys.exit, so each path falls off the end with code 0. -/
def sendTestMailExit (o : SmtpOutcome) : Nat :=
  match o with
  | .sent => 0
  | .socketError => 0
  | .smtpError => 0
  | .otherError => 0

/-! ## scripts/ws/test_websocket_validation.py -/

/-- Hexadecimal digit as matched by the character class [0-9a-fA-F]. -/
def isHexDigit (c : Char) : Bool :=
  c.isDigit || (Char.ofNat 97 ≤ c && c ≤ Char.ofNat 102) ||
    (Char.ofNat 65 ≤ c && c ≤ Char.ofNat 70)

/-- Exactly 24 hexadecimal characters. -/
def hex24 (cs : List Char) : Bool :=
  cs.length == 24 && cs.all isHexDigit

/-- Python re.match(r"^[0-9a-fA-F]{24}$", s): 24 hex characters, where the
final anchor also matches just before one trailing newline. -/
def idFormatOk (s : String) : Bool :=
  hex24 s.data ||
    (s.data.length == 25 && s.data.getLast? == some (Char.ofNat 10) &&
      hex24 (s.data.take 24))

/-- The extraction phase of test_mailbox_id_format in
scripts/ws/test_websocket_validation.py: on status 200/201 with a dict body
whose "success" is truthy, read data["data"]["id"], ["token"], ["address"];
the prints len(mailbox_id) and token[:20] and the later re.match require the
id to be a string and the token to be sliceable, any raising path is caught
and yields None. -/
def provisionExtract (r : Resp) : Option (String × Json × Json) :=
  match r with
  | .exn => none
  | .ok status body =>
    if status == 200 || status == 201 then
      match body with
      | none => none
      | some data =>
        match data with
        | .obj kvs =>
          if truthy ((jLookup kvs "success").getD .null) then
            match jLookup kvs "data" with
            | some d =>
              match pyIndex d "id", pyIndex d "token", pyIndex d "address" with
              | some i, some t, some a =>
                match i with
                | .str idS => if sliceable t then some (idS, t, a) else none
                | _ => none
              | _, _, _ => none
            | none => none
          else none
        | _ => none
    else none

/-- What test_mailbox_id_format returns and reports: the mailbox dict (or
None), and — when the format check was reached — whether the ❌
format-mismatch line was printed (some true) or the ✅ line (some false). -/
structure FormatTestOutcome where
  mailbox : Option (String × Json × Json)
  formatWarn : Option Bool

/-- test_mailbox_id_format of scripts/ws/test_websocket_validation.py: after
a successful extraction the id is matched against ^[0-9a-fA-F]{24}$ and the
result only selects which line is printed; the same triple is returned either
way, and every failure path returns None without reaching the check. -/
def test_mailbox_id_format (r : Resp) : FormatTestOutcome :=
  match provisionExtract r with
  | none => ⟨none, none⟩
  | some (i, t, a) => ⟨some (i, t, a), some (!idFormatOk i)⟩

/-- main of test_websocket_validation.py proceeds past 测试终止 exactly when
test_mailbox_id_format returned a mailbox. -/
def validationMainContinues (r : Resp) : Bool :=
  (test_mailbox_id_format r).mailbox.isSome

/-! ## Health probing: scripts/ws/simple_debug.py check_services and
scripts/ws/test_current_setup.py check_backend_status -/

/-- Fields printed for 邮件服务 by check_services:
data.get("mailService", {}) then .get("isRunning", False) and
.get("port", "unknown"); none models an AttributeError on a non-dict
receiver (caught by the surrounding except). -/
def mailShown (data : Json) : Option (Json × Json) := do
  let mi ← pyGetD data "mailService" (.obj [])
  let run ← pyGetD mi "isRunning" (.bool false)
  let port ← pyGetD mi "port" (.str "unknown")
  pure (run, port)

/-- Fields printed for WebSocket服务 by check_services:
data.get("websocket", {}) then .get("connectedClients", 0) and
.get("totalSubscriptions", 0). -/
def wsShown (data : Json) : Option (Json × Json) := do
  let wi ← pyGetD data "websocket" (.obj [])
  let clients ← pyGetD wi "connectedClients" (.num 0)
  let subs ← pyGetD wi "totalSubscriptions" (.num 0)
  pure (clients, subs)

/-- Fields printed for 集成服务 by check_services:
data.get("integration", {}) then isHealthy (default False), totalMails,
successfulBroadcasts, failedBroadcasts (default 0). -/
def integrationShown (data : Json) : Option (Json × Json × Json × Json) := do
  let ii ← pyGetD data "integration" (.obj [])
  let healthy ← pyGetD ii "isHealthy" (.bool false)
  let mails ← pyGetD ii "totalMails" (.num 0)
  let okB ← pyGetD ii "successfulBroadcasts" (.num 0)
  let badB ← pyGetD ii "failedBroadcasts" (.num 0)
  pure (healthy, mails, okB, badB)

/-- Fields printed by check_backend_status in test_current_setup.py:
data.get("mailService", {}) then .get("port") and .get("isRunning"), whose
Python default is None. -/
def backendMailShown (data : Json) : Option (Json × Json) := do
  let mi ← pyGetD data "mailService" (.obj [])
  let port ← pyGetD mi "port" .null
  let run ← pyGetD mi "isRunning" .null
  pure (port, run)

/-- One health check of check_services: fields are only extracted from a
200 response with a parseable JSON body; a raised call, another status, or a
body on which extraction raises prints an error line and shows nothing. -/
def checkService (shown : Json → Option α) (r : Resp) : Option α :=
  match r with
  | .exn => none
  | .ok status body =>
    if status == 200 then
      match body with
      | some data => shown data
      | none => none
    else none

/-! ## Concrete sample inputs used by witnesses and counterexamples -/

/-- A well-formed provisioning response body. -/
def sampleProvisionBody : Json :=
  .obj [("success", .bool true),
        ("data", .obj [("address", .str "abc123@nnu.edu.kg"),
                       ("id", .str "aabbccddeeff001122334455"),
                       ("token", .str "tok-1")])]

/-- A 200 provisioning response carrying sampleProvisionBody. -/
def sampleProvisionResp : Resp := .ok 200 (some sampleProvisionBody)

/-- A 200 retrieval response whose envelope holds exactly one message. -/
def oneMessageRetrieveResp : Resp :=
  .ok 200 (some (.obj [("success", .bool true),
                       ("data", .arr [.obj [("subject", .str "调试测试邮件"),
                                            ("from", .str "debug-test@example.com")]])]))

/-- A run where provisioning and the SMTP send succeed and the one expected
message is retrievable. -/
def fullRunWorld : World := ⟨sampleProvisionResp, false, oneMessageRetrieveResp⟩

/-- A run whose provisioning call returns HTTP 500. -/
def badStatusWorld : World := ⟨.ok 500 (some (.obj [])), false, .exn⟩

/-- A 200 retrieval response whose body is a bare legacy list with one
message. -/
def bareListResp : Resp :=
  .ok 200 (some (.arr [.obj [("subject", .str "hi"), ("from", .str "a@b")]]))

/-- A 200 retrieval response whose envelope data is a dict, not a list. -/
def dictDataResp : Resp :=
  .ok 200 (some (.obj [("success", .bool true),
                       ("data", .obj [("k", .num 1)])]))

/-- A 201 provisioning response whose id does not match the 24-hex
pattern. -/
def badIdProvisionResp : Resp :=
  .ok 201 (some (.obj [("success", .bool true),
                       ("data", .obj [("id", .str "not-a-hex-identifier"),
                                      ("token", .str "tok-2"),
                                      ("address", .str "x@y")])]))

/-- HTML-mode injector arguments, multiplicity two. -/
def htmlArgs : Args := ⟨"a@b.c", "S", "C", true, 2⟩

/-- Same as htmlArgs except for the subject and content arguments. -/
def htmlArgsAlt : Args := ⟨"a@b.c", "S2", "C2", true, 2⟩

/-- Plain-mode injector arguments, multiplicity three. -/
def plainArgs3 : Args := ⟨"a@b.c", "Test", "Body", false, 3⟩

/-! ## Helper lemmas -/

theorem create_mailbox_some (st : Nat) (body : Option Json) (m : Mailbox)
    (h : create_mailbox (.ok st body) = some m) :
    (st = 200 ∨ st = 201) ∧ wellFormedEnvelope body = true := by
  simp only [create_mailbox] at h
  split at h
  case isTrue h1 =>
    refine ⟨by simpa using h1, ?_⟩
    rcases body with _ | result
    · simp at h
    rcases result with _ | b | n | s | xs | kvs
    · simp at h
    · simp at h
    · simp at h
    · simp at h
    · simp at h
    simp only at h
    split at h
    case isTrue h2 =>
      rcases hd : jLookup kvs "data" with _ | data
      · rw [hd] at h; simp at h
      rw [hd] at h
      dsimp only at h
      rcases ha : pyIndex data "address" with _ | a
      · rw [ha] at h; simp at h
      rcases hi : pyIndex data "id" with _ | i
      · rw [ha, hi] at h; simp at h
      rcases ht : pyIndex data "token" with _ | t
      · rw [ha, hi, ht] at h; simp at h
      rcases data with _ | b | n | s | xs | dkvs
      · simp [pyIndex] at ha
      · simp [pyIndex] at ha
      · simp [pyIndex] at ha
      · simp [pyIndex] at ha
      · simp [pyIndex] at ha
      simp only [pyIndex] at ha hi ht
      simp only [Bool.and_eq_true] at h2
      simp only [wellFormedEnvelope, hd, h2.1, hasKey, ha, hi, ht,
        Option.isSome_some, Bool.and_self, Bool.true_and]
    case isFalse h2 => simp at h
  case isFalse h1 => simp at h

theorem countP_getD_range (p : Bool → Bool) (l : List Bool) (d : Bool) :
    List.countP (fun i => p (l.getD i d)) (List.range l.length) = List.countP p l := by
  induction l with
  | nil => simp
  | cons b t ih =>
    simp only [List.length_cons, List.range_succ_eq_map, List.countP_cons,
      List.countP_map, Function.comp_def, List.getD_cons_zero, List.getD_cons_succ]
    rw [ih]

/-- C1: a provisioning response whose HTTP status is not a success status, or
whose body is not a well-formed success/data envelope carrying id, address
and token, makes create_mailbox return None, and main of simple_debug.py then
terminates early: its trace ends at the provisioning call, and the injection,
waiting and retrieval phases are never performed. -/
theorem C1_provision_failure_fatal (st : Nat) (body : Option Json) (w : World)
    (hbad : successStatus st = false ∨ wellFormedEnvelope body = false)
    (hw : w.provision = .ok st body) :
    create_mailbox (.ok st body) = none ∧
    (simpleDebugMain w).trace = [.healthCheck, .provisionCall] ∧
    (simpleDebugMain w).terminatedEarly = true ∧
    Evt.injectCall ∉ (simpleDebugMain w).trace ∧
    Evt.sleep ∉ (simpleDebugMain w).trace ∧
    Evt.retrieveCall ∉ (simpleDebugMain w).trace := by
  have hnone : create_mailbox (.ok st body) = none := by
    cases hcm : create_mailbox (.ok st body) with
    | none => rfl
    | some m =>
      obtain ⟨hst, henv⟩ := create_mailbox_some st body m hcm
      rcases hbad with hbad | hbad
      · rcases hst with rfl | rfl <;> simp [successStatus] at hbad
      · rw [henv] at hbad; exact absurd hbad (by simp)
  have hmain : simpleDebugMain w = ⟨[.healthCheck, .provisionCall], true, none, 0⟩ := by
    simp only [simpleDebugMain, hw, hnone]
  rw [hmain]
  exact ⟨hnone, rfl, rfl, by decide, by decide, by decide⟩

theorem C1_provision_failure_fatal_witness :
    create_mailbox (.ok 500 (some (.obj []))) = none ∧
    (simpleDebugMain badStatusWorld).trace = [.healthCheck, .provisionCall] ∧
    (simpleDebugMain badStatusWorld).terminatedEarly = true ∧
    Evt.injectCall ∉ (simpleDebugMain badStatusWorld).trace ∧
    Evt.sleep ∉ (simpleDebugMain badStatusWorld).trace ∧
    Evt.retrieveCall ∉ (simpleDebugMain badStatusWorld).trace :=
  C1_provision_failure_fatal 500 (some (.obj [])) badStatusWorld (Or.inl rfl) rfl

/-- C2 (counterexample): in this concrete run the retrieval response holds
exactly the one expected message the entire time, yet main of simple_debug.py
performs all ten one-second sleeps of its fixed budget and only then makes
its one and only retrieval call — it neither polls repeatedly nor stops
waiting early once the expected count is observable. -/
theorem C2_counterexample :
    pyLen (check_mailbox_emails oneMessageRetrieveResp) = some 1 ∧
    (simpleDebugMain fullRunWorld).trace
      = [Evt.healthCheck, Evt.provisionCall, Evt.injectCall]
          ++ List.replicate 10 Evt.sleep ++ [Evt.retrieveCall] ∧
    (simpleDebugMain fullRunWorld).trace.count Evt.sleep = 10 ∧
    (simpleDebugMain fullRunWorld).trace.count Evt.retrieveCall = 1 := by
  refine ⟨rfl, ?_, ?_, ?_⟩ <;> decide

/-- C2 (amended): whenever provisioning succeeded and the injection did not
raise, main of simple_debug.py unconditionally waits the full fixed budget of
ten one-second sleeps and then calls the retrieval endpoint exactly once,
reporting that single call's parsed result; there is no early stop and no
repeated polling. -/
theorem C2_fixed_wait_single_retrieval (w : World)
    (h1 : (create_mailbox w.provision).isSome = true)
    (h2 : w.sendRaises = false) :
    (simpleDebugMain w).trace
      = [Evt.healthCheck, Evt.provisionCall, Evt.injectCall]
          ++ List.replicate 10 Evt.sleep ++ [Evt.retrieveCall] ∧
    (simpleDebugMain w).emails = some (check_mailbox_emails w.retrieve) := by
  rcases hcm : create_mailbox w.provision with _ | m
  · rw [hcm] at h1; simp at h1
  · simp [simpleDebugMain, hcm, h2]

theorem C2_fixed_wait_single_retrieval_witness :
    (simpleDebugMain fullRunWorld).trace
      = [Evt.healthCheck, Evt.provisionCall, Evt.injectCall]
          ++ List.replicate 10 Evt.sleep ++ [Evt.retrieveCall] ∧
    (simpleDebugMain fullRunWorld).emails
      = some (check_mailbox_emails fullRunWorld.retrieve) :=
  C2_fixed_wait_single_retrieval fullRunWorld (by decide) rfl

/-- C3: with multiplicity at least one and one SMTP raise outcome per
iteration, every iteration is attempted (the loop produces one result per
iteration even when earlier iterations raise, since each send catches its own
exception), and the reported success count equals exactly the number of
iterations that completed without raising, hence is at most the
multiplicity. -/
theorem C3_iteration_independence (args : Args) (raises : List Bool)
    (h1 : 1 ≤ args.multiple) (hlen : raises.length = args.multiple) :
    (injectorMain args raises).iters.length = args.multiple ∧
    (injectorMain args raises).successCount = (raises.filter (fun b => !b)).length ∧
    (injectorMain args raises).successCount ≤ args.multiple := by
  have hcount : (injectorMain args raises).successCount
      = (raises.filter (fun b => !b)).length := by
    simp only [injectorMain]
    rw [← List.countP_eq_length_filter, ← List.countP_eq_length_filter,
      List.countP_map]
    rw [← hlen]
    exact countP_getD_range (fun b => !b) raises false
  refine ⟨by simp [injectorMain], hcount, ?_⟩
  rw [hcount, ← hlen]
  exact List.length_filter_le _ raises

theorem C3_iteration_independence_witness :
    (injectorMain plainArgs3 [false, true, false]).iters.length = plainArgs3.multiple ∧
    (injectorMain plainArgs3 [false, true, false]).successCount
      = (([false, true, false] : List Bool).filter (fun b => !b)).length ∧
    (injectorMain plainArgs3 [false, true, false]).successCount ≤ plainArgs3.multiple :=
  C3_iteration_independence plainArgs3 [false, true, false] (by decide) (by decide)

/-- C4: the legacy bare-list branch of check_mailbox_emails is unreachable —
on a 200 response whose JSON body is a bare one-message list,
result.get("success") raises AttributeError before the isinstance(result,
list) fallback can run, the handler returns the empty list, and the reported
count is 0 instead of 1. -/
theorem C4_bare_list_dropped :
    check_mailbox_emails bareListResp = Json.arr [] ∧
    pyLen (check_mailbox_emails bareListResp) = some 0 ∧
    pyLen (Json.arr [Json.obj [("subject", Json.str "hi"), ("from", Json.str "a@b")]])
      = some 1 :=
  ⟨rfl, rfl, rfl⟩

/-- C5: whenever the provisioning response of test_mailbox_id_format parses
successfully, the id is checked against the 24-hex pattern, a mismatch is
only reported through the printed warning, the very same (id, token, address)
triple is returned whatever the check's outcome, and main continues past its
termination guard — the format check never changes the returned mailbox or
aborts the run. -/
theorem C5_format_check_nonfatal (r : Resp) (i : String) (t a : Json)
    (h : provisionExtract r = some (i, t, a)) :
    (test_mailbox_id_format r).mailbox = some (i, t, a) ∧
    (test_mailbox_id_format r).formatWarn = some (!idFormatOk i) ∧
    validationMainContinues r = true := by
  simp [test_mailbox_id_format, validationMainContinues, h]

theorem C5_format_check_nonfatal_witness :
    (test_mailbox_id_format badIdProvisionResp).mailbox
      = some ("not-a-hex-identifier", Json.str "tok-2", Json.str "x@y") ∧
    (test_mailbox_id_format badIdProvisionResp).formatWarn
      = some (!idFormatOk "not-a-hex-identifier") ∧
    validationMainContinues badIdProvisionResp = true :=
  C5_format_check_nonfatal badIdProvisionResp "not-a-hex-identifier"
    (Json.str "tok-2") (Json.str "x@y") rfl

/-- C6 (counterexample): with the HTML flag and multiplicity two, the two
constructed messages carry the same fixed sender and the same fixed subject;
that subject is not the base subject disambiguated by the index, so in HTML
mode neither the distinct-sender nor the subject-disambiguation clause
holds. -/
theorem C6_counterexample :
    (injectorMsgs htmlArgs).map (fun m => m.subject)
      = ["HTML 格式测试邮件", "HTML 格式测试邮件"] ∧
    (injectorMsgs htmlArgs).map (fun m => m.sender)
      = ["html-test@example.com", "html-test@example.com"] ∧
    htmlArgs.subject ++ " #1" ≠ "HTML 格式测试邮件" :=
  ⟨rfl, rfl, by decide⟩

/-- C6 (amended): every constructed message goes to the CLI recipient; in
plain mode the sender is the fixed test@example.com and the subject is the
base subject, suffixed with the 1-based index exactly when the multiplicity
exceeds one; in HTML mode the sender and the subject are fixed constants
independent of the index and of the subject argument. -/
theorem C6_subject_disambiguation (args : Args) (i : Nat)
    (hi : i < args.multiple) :
    (buildMessage args i).recipient = args.email ∧
    (args.html = false →
      (buildMessage args i).sender = "test@example.com" ∧
      (1 < args.multiple →
        (buildMessage args i).subject = args.subject ++ " #" ++ toString (i + 1)) ∧
      (args.multiple = 1 → (buildMessage args i).subject = args.subject)) ∧
    (args.html = true →
      (buildMessage args i).sender = "html-test@example.com" ∧
      (buildMessage args i).subject = "HTML 格式测试邮件") := by
  refine ⟨?_, ?_, ?_⟩
  · cases hh : args.html <;> simp [buildMessage, hh]
  · intro hh
    refine ⟨by simp [buildMessage, hh], ?_, ?_⟩
    · intro hm; simp [buildMessage, hh, hm]
    · intro hm; simp [buildMessage, hh, hm]
  · intro hh
    exact ⟨by simp [buildMessage, hh], by simp [buildMessage, hh]⟩

theorem C6_subject_disambiguation_witness :
    (buildMessage plainArgs3 1).recipient = plainArgs3.email ∧
    (plainArgs3.html = false →
      (buildMessage plainArgs3 1).sender = "test@example.com" ∧
      (1 < plainArgs3.multiple →
        (buildMessage plainArgs3 1).subject
          = plainArgs3.subject ++ " #" ++ toString (1 + 1)) ∧
      (plainArgs3.multiple = 1 →
        (buildMessage plainArgs3 1).subject = plainArgs3.subject)) ∧
    (plainArgs3.html = true →
      (buildMessage plainArgs3 1).sender = "html-test@example.com" ∧
      (buildMessage plainArgs3 1).subject = "HTML 格式测试邮件") :=
  C6_subject_disambiguation plainArgs3 1 (by decide)

/-- C7 (counterexample): a WebSocket health body with the connectedClients
and totalSubscriptions counters absent makes check_services surface the
concrete fabricated count 0 for both fields — not an "unknown" sentinel;
among the mail fields only the port defaults to "unknown" while the running
flag defaults to the concrete False. -/
theorem C7_counterexample :
    wsShown (Json.obj []) = some (Json.num 0, Json.num 0) ∧
    mailShown (Json.obj []) = some (Json.bool false, Json.str "unknown") ∧
    Json.num 0 ≠ Json.str "unknown" ∧
    Json.bool false ≠ Json.str "unknown" := by
  refine ⟨rfl, rfl, fun h => ?_, fun h => ?_⟩ <;> exact Json.noConfusion h

/-- C7 (amended): the health probers surface present fields with their actual
values, and default absent fields to fixed fallbacks of which only the mail
listening port is the "unknown" sentinel: flags default to the concrete
False, counters to the concrete 0, and check_backend_status of
test_current_setup.py defaults its port and running flag to Python None. -/
theorem C7_health_field_defaults (v1 v2 : Json) :
    mailShown (Json.obj []) = some (Json.bool false, Json.str "unknown") ∧
    wsShown (Json.obj []) = some (Json.num 0, Json.num 0) ∧
    integrationShown (Json.obj [])
      = some (Json.bool false, Json.num 0, Json.num 0, Json.num 0) ∧
    backendMailShown (Json.obj []) = some (Json.null, Json.null) ∧
    mailShown (Json.obj [("mailService", Json.obj [("isRunning", v1), ("port", v2)])])
      = some (v1, v2) ∧
    wsShown (Json.obj [("websocket",
        Json.obj [("connectedClients", v1), ("totalSubscriptions", v2)])])
      = some (v1, v2) := by
  refine ⟨rfl, rfl, rfl, rfl, ?_, ?_⟩ <;>
    simp [mailShown, wsShown, pyGetD, jLookup]

/-- C8: the exit code is independent of every send, provision, retrieval and
health outcome: src/send_test_mail.py exits 0 under each of its except
clauses, main of simple_debug.py exits 0 whether or not provisioning,
injection or retrieval succeed, and main of scripts/send_test_email.py exits
0 for every argument list and every pattern of raising iterations. -/
theorem C8_exit_code_always_zero (o : SmtpOutcome) (w : World) (args : Args)
    (raises : List Bool) :
    sendTestMailExit o = 0 ∧
    (simpleDebugMain w).exitCode = 0 ∧
    (injectorMain args raises).exitCode = 0 := by
  refine ⟨by cases o <;> rfl, ?_, rfl⟩
  rcases hcm : create_mailbox w.provision with _ | m
  · simp [simpleDebugMain, hcm]
  · rcases hs : w.sendRaises <;> simp [simpleDebugMain, hcm, hs]

/-- C9: in HTML mode the subject and content arguments have no influence on
the constructed messages — any two invocations with the HTML flag that agree
on the recipient and the multiplicity construct identical message
sequences. -/
theorem C9_html_mode_ignores_subject_content (a1 a2 : Args)
    (h1 : a1.html = true) (h2 : a2.html = true)
    (he : a1.email = a2.email) (hm : a1.multiple = a2.multiple) :
    injectorMsgs a1 = injectorMsgs a2 := by
  unfold injectorMsgs
  rw [hm]
  have hf : buildMessage a1 = buildMessage a2 := by
    funext i
    simp [buildMessage, h1, h2, he]
  rw [hf]

theorem C9_html_mode_ignores_subject_content_witness :
    injectorMsgs htmlArgs = injectorMsgs htmlArgsAlt :=
  C9_html_mode_ignores_subject_content htmlArgs htmlArgsAlt rfl rfl rfl rfl

/-- C10 (counterexample): a 200 retrieval response whose envelope data member
is a dict makes check_mailbox_emails return that dict — the function is total
but its result is not always a list. -/
theorem C10_counterexample :
    check_mailbox_emails dictDataResp = Json.obj [("k", Json.num 1)] ∧
    isArr (check_mailbox_emails dictDataResp) = false :=
  ⟨rfl, rfl⟩

/-- C10 (amended): check_mailbox_emails is total — for every call outcome it
returns a value (never None, never a propagated exception) on which len is
defined: either the empty list, or exactly the data member of a wrapped 200
envelope, which may be a list, a string or a dict; so the caller can always
take the length of the result. -/
theorem C10_total_and_sized (r : Resp) :
    (pyLen (check_mailbox_emails r)).isSome = true ∧
    (check_mailbox_emails r = Json.arr [] ∨
      envelopeData r = some (check_mailbox_emails r)) := by
  rcases r with _ | ⟨st, body⟩
  · exact ⟨rfl, Or.inl rfl⟩
  simp only [check_mailbox_emails, envelopeData]
  by_cases hst : (st == 200) = true
  · rw [if_pos hst, if_pos hst]
    rcases body with _ | result
    · exact ⟨rfl, Or.inl rfl⟩
    rcases result with _ | b | n | s | xs | kvs
    · exact ⟨rfl, Or.inl rfl⟩
    · exact ⟨rfl, Or.inl rfl⟩
    · exact ⟨rfl, Or.inl rfl⟩
    · exact ⟨rfl, Or.inl rfl⟩
    · exact ⟨rfl, Or.inl rfl⟩
    dsimp only
    by_cases hc :
        (truthy ((jLookup kvs "success").getD .null) && hasKey kvs "data") = true
    · rw [if_pos hc, if_pos hc]
      have hk : hasKey kvs "data" = true := by
        simp only [Bool.and_eq_true] at hc
        exact hc.2
      rcases hd : jLookup kvs "data" with _ | d
      · simp [hasKey, hd] at hk
      simp only [Option.getD_some]
      rcases hl : pyLen d with _ | n
      · exact ⟨rfl, Or.inl rfl⟩
      · refine ⟨?_, Or.inr rfl⟩
        show (pyLen d).isSome = true
        rw [hl]
        rfl
    · rw [if_neg hc, if_neg hc]
      exact ⟨rfl, Or.inl rfl⟩
  · rw [if_neg hst, if_neg hst]
    exact ⟨rfl, Or.inl rfl⟩
